import Mathlib

/-!
Verification development for the `fast_gemini` agentic tool-calling library.

The definitions below are a shallow embedding of the Python sources under
`src/fast_gemini/`: pure functions become Lean functions, the stateful chat
loop becomes an explicit fuel-indexed recursion producing a trace of
observable events, and fallible Python code (raised exceptions) is embedded
with `Except`.  Each section names the source file and function it embeds.
-/

set_option autoImplicit false

/-! ## JSON-like dictionaries

Python `Dict` payloads (tool arguments, tool results, serialized messages)
are embedded as a simple JSON value type. -/

inductive JValue where
  | str (s : String)
  | num (n : Int)
  | boolean (b : Bool)
  | null
  | arr (elems : List JValue)
  | obj (fields : List (String × JValue))

/-- A Python `Dict` as used for tool args / results: string-keyed fields. -/
abbrev JDict := List (String × JValue)

/-- Key lookup in a JSON object (Python `data["key"]` / `dict.get`). -/
def JValue.getKey? (v : JValue) (key : String) : Option JValue :=
  match v with
  | .obj fields => fields.lookup key
  | _ => none

/-! ## `src/fast_gemini/GeminiFile.py` -/

/-- Embeds `GeminiFile`: a file reference sent to the API. -/
structure GeminiFile where
  uri : String
  mime_type : String
deriving DecidableEq

/-! ## `src/fast_gemini/session/ChatMessage.py` -/

/-- Embeds the `Role` enum. -/
inductive Role where
  | user
  | model
deriving DecidableEq

/-- Embeds `Role.value` (`Role` is a `str` enum). -/
def Role.value : Role → String
  | .user => "user"
  | .model => "model"

/-- Embeds `Role(s)` enum construction, which raises `ValueError` for a
string that is not a member. -/
def Role.ofValue (s : String) : Except String Role :=
  if s = "user" then .ok .user
  else if s = "model" then .ok .model
  else .error ("ValueError: " ++ s ++ " is not a valid Role")

/-- Embeds the `Union[UserResponse, FunctionCall, FunctionResult, FileContent]`
content of a `ChatMessage` as a sum type; each constructor carries the fields
of the corresponding pydantic model. -/
inductive ChatContent where
  | userResponse (query : String)
  | functionCall (tool_name : String) (tool_args : JDict)
  | functionResult (tool_name : String) (tool_result : JDict)
  | fileContent (file : GeminiFile)

/-- Embeds `content.__class__.__name__` used by `ChatMessage.to_json`. -/
def ChatContent.className : ChatContent → String
  | .userResponse _ => "UserResponse"
  | .functionCall _ _ => "FunctionCall"
  | .functionResult _ _ => "FunctionResult"
  | .fileContent _ => "FileContent"

/-- Embeds `content.model_dump()` for each of the four content models. -/
def ChatContent.model_dump : ChatContent → JValue
  | .userResponse q => .obj [("query", .str q)]
  | .functionCall n a => .obj [("tool_name", .str n), ("tool_args", .obj a)]
  | .functionResult n r => .obj [("tool_name", .str n), ("tool_result", .obj r)]
  | .fileContent f => .obj [("file", .obj [("uri", .str f.uri), ("mime_type", .str f.mime_type)])]

/-- Embeds `ChatMessage`: a role together with one of the four content
variants. -/
structure ChatMessage where
  role : Role
  content : ChatContent

/-- Embeds `ChatMessage.to_json`. -/
def ChatMessage.to_json (m : ChatMessage) : JValue :=
  .obj [("role", .str m.role.value),
        ("content_type", .str m.content.className),
        ("content", m.content.model_dump)]

/-- Embeds reconstruction of `UserResponse(**content_data)`: the `query`
field is required and must be a string. -/
def parseUserResponse (data : JValue) : Except String ChatContent :=
  match data.getKey? "query" with
  | some (.str q) => .ok (.userResponse q)
  | _ => .error "ValidationError: UserResponse"

/-- Embeds reconstruction of `FunctionCall(**content_data)`. -/
def parseContentFunctionCall (data : JValue) : Except String ChatContent :=
  match data.getKey? "tool_name", data.getKey? "tool_args" with
  | some (.str n), some (.obj a) => .ok (.functionCall n a)
  | _, _ => .error "ValidationError: FunctionCall"

/-- Embeds reconstruction of `FunctionResult(**content_data)`. -/
def parseContentFunctionResult (data : JValue) : Except String ChatContent :=
  match data.getKey? "tool_name", data.getKey? "tool_result" with
  | some (.str n), some (.obj r) => .ok (.functionResult n r)
  | _, _ => .error "ValidationError: FunctionResult"

/-- Embeds reconstruction of `FileContent(**content_data)`: the nested
`file` dict is validated into a `GeminiFile`. -/
def parseFileContent (data : JValue) : Except String ChatContent :=
  match data.getKey? "file" with
  | some f =>
    match f.getKey? "uri", f.getKey? "mime_type" with
    | some (.str u), some (.str mt) => .ok (.fileContent ⟨u, mt⟩)
    | _, _ => .error "ValidationError: GeminiFile"
  | _ => .error "ValidationError: FileContent"

/-- Embeds `ChatMessage.from_json`: checks the input is a dictionary with
the three required fields, parses the role, and dispatches on
`content_type`. -/
def ChatMessage.from_json (data : JValue) : Except String ChatMessage :=
  match data with
  | .obj _ =>
    match data.getKey? "role", data.getKey? "content_type", data.getKey? "content" with
    | some roleV, some ctV, some contentData =>
      match roleV with
      | .str roleS =>
        match Role.ofValue roleS with
        | .error e => .error e
        | .ok role =>
          match ctV with
          | .str ct =>
            let content : Except String ChatContent :=
              if ct = "UserResponse" then parseUserResponse contentData
              else if ct = "FunctionCall" then parseContentFunctionCall contentData
              else if ct = "FunctionResult" then parseContentFunctionResult contentData
              else if ct = "FileContent" then parseFileContent contentData
              else .error ("Unknown content type: " ++ ct)
            content.map (fun c => ⟨role, c⟩)
          | _ => .error "Unknown content type"
      | _ => .error "ValueError: role"
    | _, _, _ => .error "Missing required fields in input data"
  | _ => .error "Input must be a dictionary"

/-- Embeds `ChatMessage.from_user_query`. -/
def ChatMessage.from_user_query (query : String) : ChatMessage :=
  ⟨.user, .userResponse query⟩

/-- Embeds `ChatMessage.from_function_call`. -/
def ChatMessage.from_function_call (tool_name : String) (tool_args : JDict) : ChatMessage :=
  ⟨.model, .functionCall tool_name tool_args⟩

/-- Embeds `ChatMessage.from_function_result`. -/
def ChatMessage.from_function_result (tool_name : String) (tool_result : JDict) : ChatMessage :=
  ⟨.model, .functionResult tool_name tool_result⟩

/-- Embeds `ChatMessage.from_file`. -/
def ChatMessage.from_file (file : GeminiFile) : ChatMessage :=
  ⟨.user, .fileContent file⟩

/-! ## `src/fast_gemini/Tool.py`

`Tool` is an abstract pydantic model with a required async capability
`execute(tool_args) -> Dict`.  The claims all assume tool executions return
normally, so the capability is embedded as a total function. -/

structure Tool where
  name : String
  function_definition : JDict
  execute : JDict → JDict

/-! ## raw model-side function calls (`google.genai.types.FunctionCall`) -/

/-- A raw function-call descriptor as found on a response part: a name and
an argument mapping. -/
structure FuncCallRaw where
  name : String
  args : JDict

/-! ## `src/fast_gemini/FunctionCall.py` -/

/-- Embeds `FunctionCall`: a resolved pairing of a `Tool` with the raw
descriptor the model supplied. -/
structure FunctionCall where
  tool : Tool
  function_call : FuncCallRaw

/-! ## `src/fast_gemini/FunctionCallResult.py` -/

/-- Embeds the declared fields of `FunctionCallResult`: the originating
call and its `result` payload. -/
structure FunctionCallResult where
  function_call : FunctionCall
  result : JDict

/-- The parameter names of `FunctionCallResult.__init__` in the source:
`def __init__(self, function_call: FunctionCall, response: Dict)`. -/
def functionCallResultInitParams : List String := ["function_call", "response"]

/-- The keyword names `AsyncToolExecutor.execute_tools` supplies when it
constructs a `FunctionCallResult`:
`FunctionCallResult(function_call=..., result=...)`. -/
def asyncExecutorResultKwargs : List String := ["function_call", "result"]

/-- Python keyword binding: a call succeeds only if every supplied keyword
names a parameter of the callee; otherwise it raises
`TypeError: unexpected keyword argument`. -/
def kwargsBindOk (supplied params : List String) : Bool :=
  supplied.all (fun k => params.contains k)

/-! ## `src/fast_gemini/ToolsExecutionResult.py` -/

/-- Embeds `ToolsExecutionResult`: the batch-level outcome. -/
structure ToolsExecutionResult where
  should_proceed : Bool
  function_call_results : List FunctionCallResult

/-! ## `src/fast_gemini/AsyncToolExecutor.py` -/

/-- Embeds `AsyncToolExecutor.execute_tools` under the assumption that every
tool execution returns normally.  `asyncio.gather` preserves task order, so
the result list is the in-order map of each call's own tool over its args.
The subsequent list comprehension constructs one `FunctionCallResult` per
zipped pair with keywords `function_call=`/`result=`; Python keyword binding
against `FunctionCallResult.__init__`'s parameters `(function_call, response)`
raises `TypeError` there, embedded via `Except`. -/
def AsyncToolExecutor.execute_tools (function_calls : List FunctionCall) :
    Except String ToolsExecutionResult := do
  let results := function_calls.map (fun fc => fc.tool.execute fc.function_call.args)
  let function_call_results ← (function_calls.zip results).mapM (fun p =>
    if kwargsBindOk asyncExecutorResultKwargs functionCallResultInitParams then
      Except.ok (⟨p.1, p.2⟩ : FunctionCallResult)
    else
      Except.error "TypeError: FunctionCallResult.__init__() got an unexpected keyword argument: result")
  return ⟨true, function_call_results⟩

/-! ## `BatchToolExecutor` (not present under `src/`)

`src/fast_gemini/RateLimitingBatchExecutor.py` imports `BatchToolExecutor`
from a sibling module that is not part of the provided sources. -/

/-- Modelled from the spec: the missing `BatchToolExecutor.execute_tools`.
Spec 4.4 strategy 2 states each chunk is "executed via the concurrent-gather
strategy", whose contract is: launch every call, wait for all, return the
results positionally in input order with `should_proceed` always true. -/
def BatchToolExecutor.execute_tools (function_calls : List FunctionCall) :
    ToolsExecutionResult :=
  ⟨true, function_calls.map (fun fc => ⟨fc, fc.tool.execute fc.function_call.args⟩)⟩

/-! ## `src/fast_gemini/RateLimitingBatchExecutor.py` -/

/-- Embeds the chunking loop `for i in range(0, len(function_calls),
max_batch_size)` with `batch = function_calls[i:i+max_batch_size]`, using a
fuel argument so the definition is total; for `max_batch_size ≥ 1` the fuel
`function_calls.length` is never exhausted.  (For `max_batch_size = 0` the
Python `range` raises `ValueError`; that case is outside the claims.) -/
def chunksGo (max_batch_size : Nat) : Nat → List FunctionCall → List (List FunctionCall)
  | _, [] => []
  | 0, _ => []
  | fuel + 1, calls => calls.take max_batch_size :: chunksGo max_batch_size fuel (calls.drop max_batch_size)

/-- Embeds `RateLimitingBatchExecutor.execute_tools`: process the calls in
chunks of `max_batch_size`, each chunk via `BatchToolExecutor`, accumulating
the per-chunk results in order with `should_proceed` true. -/
def RateLimitingBatchExecutor.execute_tools (max_batch_size : Nat)
    (function_calls : List FunctionCall) : ToolsExecutionResult :=
  ⟨true, (chunksGo max_batch_size function_calls.length function_calls).flatMap
    (fun batch => (BatchToolExecutor.execute_tools batch).function_call_results)⟩

/-! ## `src/fast_gemini/session/ChatManager.py` -/

/-- Embeds `types.Tool(function_declarations=[...])`: the single wrapper
object placed in `config["tools"]`. -/
structure ToolDeclaration where
  function_declarations : List JDict

/-- Embeds the generation-config dictionary built by `ChatManager`.  Each
field models one key; `none` models the key being absent (`dict.pop`). -/
structure GenConfig where
  automatic_function_calling_disable : Option Bool
  tool_config_mode : Option String
  tools : Option (List ToolDeclaration)
  cached_content : Option String

/-- Embeds `ChatManager.default_config`:
`{"automatic_function_calling": {"disable": True},
  "tool_config": {"function_calling_config": {"mode": "auto"}}}`. -/
def default_config : GenConfig :=
  { automatic_function_calling_disable := some true
    tool_config_mode := some "auto"
    tools := none
    cached_content := none }

/-- Embeds `ChatManager.__get_config_with_tools`: with a non-empty tool set
it sets `config["tools"]` to one `types.Tool` wrapping every tool's
`function_definition` and sets the tool-config mode to the caller-requested
`tool_mode`; with an empty tool set it pops the `tools`, `tool_config` and
`automatic_function_calling` keys. -/
def get_config_with_tools (config : GenConfig) (tools : List Tool) (tool_mode : String) :
    GenConfig :=
  match tools with
  | _ :: _ =>
    { config with
        tools := some [⟨tools.map (fun t => t.function_definition)⟩]
        tool_config_mode := some tool_mode }
  | [] =>
    { config with
        tools := none
        tool_config_mode := none
        automatic_function_calling_disable := none }

/-- Embeds `ChatManager.__create_prompt_with_query` for `context=None`
(the path taken from `GeminiClient.chat`): the system prompt followed by the
current-task block, with an empty context string. -/
def create_prompt_with_query (system_prompt query : String) : String :=
  system_prompt ++ "\n\nCURRENT TASK:\n<user_query>" ++ query ++ "</user_query>"

/-- Embeds `GenerateContentRequest` from
`src/fast_gemini/session/GenerateContentRequest.py`. -/
structure GenerateContentRequest where
  contents : List ChatMessage
  config : GenConfig

/-- Embeds `ChatManager.generate_content_request` for the arguments used by
`GeminiClient.chat` (`cache_config=None`, `context=None`, `files=[]`).  The
storage collaborator's `get_history` is abstracted as a function from chat
id to stored messages.  With existing history the query is appended to it;
otherwise a fresh history is seeded with the composed prompt. -/
def generate_content_request (system_prompt : String)
    (get_history : String → List ChatMessage) (chat_id : String)
    (query : String) (tools : List Tool) (tool_mode : String) :
    GenerateContentRequest :=
  let config := get_config_with_tools default_config tools tool_mode
  let messages := get_history chat_id
  let messages :=
    match messages with
    | _ :: _ => messages ++ [ChatMessage.from_user_query query]
    | [] => [ChatMessage.from_user_query (create_prompt_with_query system_prompt query)]
  ⟨messages, config⟩

/-! ## `src/fast_gemini/GeminiClient.py`: the model gateway -/

/-- A part of a model response (`google.genai.types.Part`): it may carry a
text payload, a function-call descriptor, both, or neither. -/
structure RespPart where
  text : Option String
  function_call : Option FuncCallRaw

/-- A response candidate's content: an ordered list of parts. -/
structure Content where
  parts : List RespPart

/-- A response candidate; `content` may be missing. -/
structure Candidate where
  content : Option Content

/-- A raw endpoint response: an ordered list of candidates. -/
structure Response where
  candidates : List Candidate

/-- One attempt's outcome at the endpoint
(`client.aio.models.generate_content`): a response object, a vendor
`errors.APIError` carrying a code and message, or any other exception. -/
inductive EndpointOutcome where
  | ok (response : Response)
  | apiError (code : String) (message : String)
  | otherError (message : String)

/-- Embeds the exception taxonomy of `src/fast_gemini/exceptions.py`. -/
inductive GError where
  | api (code : String) (message : String)
  | response (message : String)
  | toolExec (message : String)

/-- Embeds `GeminiClient._get_gemini_response` for one endpoint attempt.
The response-validation `raise GeminiResponseError(...)` statements sit
inside the same `try` block as the endpoint call, so they are caught by the
trailing `except Exception as e` handler and re-raised as
`GeminiAPIError("UNKNOWN", str(e))`; a vendor `errors.APIError` is re-raised
as `GeminiAPIError(e.code, e.message)`. -/
def get_gemini_response (outcome : EndpointOutcome) : Except GError Response :=
  match outcome with
  | .apiError code message => .error (.api code message)
  | .otherError message => .error (.api "UNKNOWN" message)
  | .ok response =>
    match response.candidates with
    | [] => .error (.api "UNKNOWN" "No response generated")
    | candidate :: _ =>
      match candidate.content with
      | none => .error (.api "UNKNOWN" "Empty response content")
      | some content =>
        match content.parts with
        | [] => .error (.api "UNKNOWN" "Empty response content")
        | _ :: _ => .ok response

/-- The observable outcome of `_get_gemini_response_with_retry`: the final
result, the number of endpoint attempts made, and the number of one-second
`asyncio.sleep(1)` delays taken between attempts. -/
structure RetryResult where
  result : Except GError Response
  attempts : Nat
  sleeps : Nat

/-- Embeds the body of `_get_gemini_response_with_retry`'s
`for attempt in range(num_retries + 1)` loop from iteration `attempt`
onwards, with `retries_left` the number of retries still in budget (the
Python guard `attempt < num_retries` corresponds to `retries_left > 0`
since `retries_left = num_retries - attempt` throughout): a successful call
returns immediately; a `GeminiAPIError` is retried after one
`asyncio.sleep(1)` while budget remains and re-raised once it is exhausted;
any other error kind would propagate uncaught.  At exit the number of
sleeps taken equals the final attempt index. -/
def retryGo (endpoint : Nat → EndpointOutcome) : Nat → Nat → RetryResult
  | retries_left, attempt =>
    match get_gemini_response (endpoint attempt) with
    | .ok r => ⟨.ok r, attempt + 1, attempt⟩
    | .error e =>
      match e with
      | .api code message =>
        match retries_left with
        | left + 1 => retryGo endpoint left (attempt + 1)
        | 0 => ⟨.error (.api code message), attempt + 1, attempt⟩
      | _ => ⟨.error e, attempt + 1, attempt⟩

/-- Embeds `GeminiClient._get_gemini_response_with_retry`: run the attempt
loop from attempt 0 with the full retry budget. -/
def get_gemini_response_with_retry (endpoint : Nat → EndpointOutcome)
    (num_retries : Nat) : RetryResult :=
  retryGo endpoint num_retries 0

/-! ## `GeminiClient` response processing -/

/-- Embeds `GeminiClient._extract_text_parts`: keep, in order, each part's
`text` attribute when it is present and truthy (non-empty). -/
def extract_text_parts (parts : List RespPart) : List String :=
  parts.filterMap (fun p =>
    match p.text with
    | some t => if t = "" then none else some t
    | none => none)

/-- Embeds `GeminiClient._extract_function_calls`: keep, in order, each
part's `function_call` when present, skipping descriptors whose name is
falsy (empty).  The Python keeps `(function_call, part)` tuples but the
`part` component is never used downstream, so only the descriptor is kept. -/
def extract_function_calls (parts : List RespPart) : List FuncCallRaw :=
  parts.filterMap (fun p =>
    match p.function_call with
    | some fc => if fc.name = "" then none else some fc
    | none => none)

/-- Embeds the `response.candidates[0].content.parts` access of
`GeminiClient._process_response`; after `_get_gemini_response` validation
the list of candidates is non-empty and the first candidate's content is
present (the `[]` fall-backs are unreachable on validated responses). -/
def responseParts (response : Response) : List RespPart :=
  match response.candidates with
  | candidate :: _ =>
    match candidate.content with
    | some content => content.parts
    | none => []
  | [] => []

/-- Embeds `GeminiClient._create_tool_calls`: for each descriptor in order,
find the first tool whose name matches exactly
(`next((t for t in tools if t.name == function_call.name), None)`); on the
first descriptor with no match raise
`GeminiToolExecutionError(f"Tool {function_call.name} not found")`. -/
def create_tool_calls (function_calls : List FuncCallRaw) (tools : List Tool) :
    Except String (List FunctionCall) :=
  match function_calls with
  | [] => .ok []
  | fc :: rest =>
    match tools.find? (fun t => t.name == fc.name) with
    | none => .error ("Tool " ++ fc.name ++ " not found")
    | some tool =>
      (create_tool_calls rest tools).map (fun tail => ⟨tool, fc⟩ :: tail)

/-- The two messages `GeminiClient._update_generation_request` appends for
one `FunctionCallResult`: the model-origin tool-call request, then the
model-origin tool-call result, both named after the result's own tool. -/
def pairMessages (r : FunctionCallResult) : List ChatMessage :=
  [ChatMessage.from_function_call r.function_call.tool.name r.function_call.function_call.args,
   ChatMessage.from_function_result r.function_call.tool.name r.result]

/-- Embeds `GeminiClient._update_generation_request`: the `for result in
execution_result.function_call_results` loop appending the call message and
then the result message for each result in order. -/
def update_generation_request (contents : List ChatMessage)
    (execution_result : ToolsExecutionResult) : List ChatMessage :=
  execution_result.function_call_results.foldl
    (fun acc r => acc ++ pairMessages r) contents

/-! ## `GeminiClient.chat`: the orchestration loop

The loop is embedded as a fuel-indexed recursion that also carries the
Python `iteration` counter (`iteration` increments at loop top; the `while
iteration < max_iterations` guard corresponds to non-zero fuel when the
recursion starts with `fuel = max_iterations` and `iteration = 0`).  The
observable behaviour of one `chat` call is collected in a trace of events:
each `yield text`, each call to `_create_tool_calls`, each
`tool_executor.execute_tools` invocation, and the final sentinel yield. -/

/-- Observable events of one `chat` invocation, tagged with the value of the
`iteration` counter during the round that produced them. -/
inductive Ev where
  | yieldText (round : Nat) (text : String)
  | resolveCalls (round : Nat) (names : List String)
  | execBatch (round : Nat) (calls : List FunctionCall)
  | sentinel

/-- How the chat loop ended. -/
inductive ChatOutcome where
  | doneNoCalls
  | doneStop
  | doneCap
  | err (e : GError)

/-- `true` for the non-exceptional loop exits (`break` or a failed `while`
guard); `false` when an exception propagates out of the generator. -/
def ChatOutcome.isDone : ChatOutcome → Bool
  | .doneNoCalls => true
  | .doneStop => true
  | .doneCap => true
  | .err _ => false

/-- A history-storage operation performed during `chat`, with the chat id
it was given. -/
inductive StorageOp where
  | read (chat_id : String)
  | write (chat_id : String) (messages : List ChatMessage)

/-- The chat id carried by a storage operation. -/
def StorageOp.chatId : StorageOp → String
  | .read c => c
  | .write c _ => c

/-- Result of running the chat loop (and of `chat` itself). -/
structure LoopOut where
  trace : List Ev
  outcome : ChatOutcome
  iteration : Nat
  model_calls : Nat
  contents : List ChatMessage
  accesses : List StorageOp

/-- Embeds the `while iteration < max_iterations` body of
`GeminiClient.chat`.  Parameters: the chat id in scope (`"1"` at the call
site), the caller's tools, the tool executor abstracted as a function that
returns normally, the endpoint behaviour for each round and attempt, and
the retry budget.  One round: call the gateway with retry (an error
propagates immediately, before any yield of that round); yield every
extracted text part; break if there are no function calls; resolve the
batch all-or-nothing (an unresolved name raises, aborting the generator);
execute the batch; fold the results into the working contents; on
`should_proceed = False` persist the history and break; otherwise loop. -/
def chatLoop (chat_id : String) (tools : List Tool)
    (execute_tools : List FunctionCall → ToolsExecutionResult)
    (endpoint : Nat → Nat → EndpointOutcome) (num_retries : Nat) :
    Nat → Nat → List ChatMessage → LoopOut
  | 0, iteration, contents => ⟨[], .doneCap, iteration, 0, contents, []⟩
  | fuel + 1, iteration, contents =>
    let iter := iteration + 1
    match (get_gemini_response_with_retry (endpoint iter) num_retries).result with
    | .error e => ⟨[], .err e, iter, 1, contents, []⟩
    | .ok response =>
      let parts := responseParts response
      let text_parts := extract_text_parts parts
      let function_calls := extract_function_calls parts
      let yields := text_parts.map (Ev.yieldText iter)
      match function_calls with
      | [] => ⟨yields, .doneNoCalls, iter, 1, contents, []⟩
      | _ :: _ =>
        let resolveEv := Ev.resolveCalls iter (function_calls.map (fun fc => fc.name))
        match create_tool_calls function_calls tools with
        | .error msg => ⟨yields ++ [resolveEv], .err (.toolExec msg), iter, 1, contents, []⟩
        | .ok tool_calls =>
          let execution_result := execute_tools tool_calls
          let contents' := update_generation_request contents execution_result
          if execution_result.should_proceed then
            let rest := chatLoop chat_id tools execute_tools endpoint num_retries fuel iter contents'
            ⟨yields ++ [resolveEv, Ev.execBatch iter tool_calls] ++ rest.trace,
             rest.outcome, rest.iteration, rest.model_calls + 1, rest.contents,
             rest.accesses⟩
          else
            ⟨yields ++ [resolveEv, Ev.execBatch iter tool_calls], .doneStop, iter, 1,
             contents', [StorageOp.write chat_id contents']⟩

/-- Embeds the code after the `while` loop of `GeminiClient.chat`: when the
loop exited without an exception (an exception would propagate out of the
generator before reaching this code), yield the
`"Maximum tool iterations reached."` sentinel if `iteration >=
max_iterations` at exit. -/
def chatFinish (max_iterations : Nat) (L : LoopOut) : LoopOut :=
  match L.outcome with
  | .err _ => L
  | _ =>
    if max_iterations ≤ L.iteration then
      { L with trace := L.trace ++ [Ev.sentinel] }
    else L

/-- Embeds `GeminiClient.chat`: set `chat_id = "1"`, build the initial
request through the chat manager (recording the history read), run the
loop, then run the post-loop sentinel check. -/
def chat (system_prompt : String) (get_history : String → List ChatMessage)
    (query : String) (tools : List Tool)
    (execute_tools : List FunctionCall → ToolsExecutionResult)
    (endpoint : Nat → Nat → EndpointOutcome)
    (max_iterations : Nat) (num_retries : Nat) (tool_mode : String) : LoopOut :=
  let chat_id := "1"
  let generation_request :=
    generate_content_request system_prompt get_history chat_id query tools tool_mode
  let L := chatLoop chat_id tools execute_tools endpoint num_retries
    max_iterations 0 generation_request.contents
  chatFinish max_iterations { L with accesses := StorageOp.read chat_id :: L.accesses }

/-- The text chunks a consumer of the `chat` generator receives, in order:
each yielded text part and, for the sentinel event, the literal
`"Maximum tool iterations reached."` chunk. -/
def chunksOf (trace : List Ev) : List String :=
  trace.filterMap (fun e =>
    match e with
    | .yieldText _ t => some t
    | .sentinel => some "Maximum tool iterations reached."
    | _ => none)

/-- `true` exactly on the sentinel event. -/
def isSentinelEv : Ev → Bool
  | .sentinel => true
  | _ => false

/-- `true` exactly on yield events. -/
def isYieldEv : Ev → Bool
  | .yieldText _ _ => true
  | _ => false

/-- `true` on events tagged with round `r` (the sentinel belongs to no
round). -/
def isRoundEv (r : Nat) : Ev → Bool
  | .yieldText r' _ => r' == r
  | .resolveCalls r' _ => r' == r
  | .execBatch r' _ => r' == r
  | .sentinel => false

/-- The number of sentinel chunks in a trace. -/
def sentinelCount (trace : List Ev) : Nat :=
  trace.countP isSentinelEv

/-! ## `src/fast_gemini/ToolExecutor.py`: the event stream and shutdown

The executor's streaming side-channel is an `asyncio.Queue` plus a lazy
generator `_create_stream` that repeatedly awaits `queue.get()` and
terminates cleanly when it dequeues `None`.  The queue is embedded as a FIFO
list of `Option T` (front = next to dequeue; `none` is the stop signal);
`_result_stream` is embedded as a flag recording whether the stream
reference is still set. -/

structure ExecutorStreamState (T : Type) where
  event_queue : List (Option T)
  result_stream_set : Bool

/-- The freshly initialised state built by `model_post_init`: an empty
queue and a created stream. -/
def ExecutorStreamState.initState (T : Type) : ExecutorStreamState T :=
  ⟨[], true⟩

/-- Embeds `ToolExecutor._emit_event`: `await self._event_queue.put(event)`
appends to the queue. -/
def ExecutorStreamState.emit_event {T : Type} (s : ExecutorStreamState T) (event : T) :
    ExecutorStreamState T :=
  { s with event_queue := s.event_queue ++ [some event] }

/-- Embeds the drain loop of `ToolExecutor.shutdown`:
`while not self._event_queue.empty(): self._event_queue.get_nowait()`. -/
def drainQueue {T : Type} : List (Option T) → List (Option T)
  | [] => []
  | _ :: rest => drainQueue rest

/-- Embeds `ToolExecutor.shutdown`: enqueue the `None` stop signal, then
synchronously drain the entire queue (there is no suspension point between
the put and the drain loop, so the drain also removes the just-enqueued
signal and any event not yet consumed), then clear the stream reference. -/
def ExecutorStreamState.shutdown {T : Type} (s : ExecutorStreamState T) :
    ExecutorStreamState T :=
  let afterPut := s.event_queue ++ [none]
  let afterDrain := drainQueue afterPut
  ⟨afterDrain, false⟩

/-- What the generator of `_create_stream` observes from here on if no
further producer activity occurs: it dequeues and yields events until it
dequeues the `None` signal (clean end of stream); on an empty queue
`await queue.get()` suspends with no producer to wake it (blocked). -/
inductive StreamEnd where
  | cleanEnd
  | blocked
deriving DecidableEq

/-- Runs the `_create_stream` generator against the queue contents. -/
def consumeStream {T : Type} : List (Option T) → List T × StreamEnd
  | [] => ([], .blocked)
  | none :: _ => ([], .cleanEnd)
  | some e :: rest =>
    let (events, ending) := consumeStream rest
    (e :: events, ending)

/-! ## Concrete fixtures used by witnesses and counterexamples -/

/-- A concrete tool whose execution returns normally. -/
def calcTool : Tool := ⟨"calc", [("description", .str "adds")], fun _ => [("result", .num 4)]⟩

/-- An endpoint whose every attempt answers with one text part `"4"` and no
function calls. -/
def text4Endpoint : Nat → Nat → EndpointOutcome :=
  fun _ _ => .ok ⟨[⟨some ⟨[⟨some "4", none⟩]⟩⟩]⟩

/-- An endpoint whose every attempt requests the tool `"calc"`. -/
def callCalcEndpoint : Nat → Nat → EndpointOutcome :=
  fun _ _ => .ok ⟨[⟨some ⟨[⟨none, some ⟨"calc", []⟩⟩]⟩⟩]⟩

/-- An endpoint whose every attempt requests a tool named `"unknown_tool"`. -/
def unknownToolEndpoint : Nat → Nat → EndpointOutcome :=
  fun _ _ => .ok ⟨[⟨some ⟨[⟨none, some ⟨"unknown_tool", []⟩⟩]⟩⟩]⟩

/-- An executor behaviour that always gathers successfully and proceeds. -/
def proceedExec : List FunctionCall → ToolsExecutionResult :=
  fun calls => ⟨true, calls.map (fun fc => ⟨fc, fc.tool.execute fc.function_call.args⟩)⟩

/-- A concrete executor outcome with one in-order result, used by the C7
witness. -/
def exampleResult : ToolsExecutionResult :=
  ⟨true, [⟨⟨calcTool, ⟨"calc", []⟩⟩, [("result", .num 4)]⟩]⟩

/-- The dangling-call invariant on a conversation: every message whose
content is a tool-call request is immediately followed by a tool-call
result message naming the same tool. -/
def noDanglingCall : List ChatMessage → Bool
  | [] => true
  | m :: rest =>
    match m.content with
    | .functionCall tool_name _ =>
      (match rest with
       | m' :: _ =>
         (match m'.content with
          | .functionResult tool_name' _ => tool_name == tool_name'
          | _ => false)
       | [] => false) && noDanglingCall rest
    | _ => noDanglingCall rest

/-! ## C10 -/

/-- C10: for every `ChatMessage` of any of the four content variants,
`ChatMessage.from_json (m.to_json)` reconstructs a message equal to `m`:
the serialization round trip is the identity. -/
theorem chatMessage_json_roundTrip (m : ChatMessage) :
    ChatMessage.from_json m.to_json = .ok m := by
  rcases m with ⟨role, content⟩
  cases role <;> cases content <;> rfl

/-! ## C2 -/

/-- C2 evaluation at the failing input: on a batch of one `FunctionCall`
whose tool returns normally, `AsyncToolExecutor.execute_tools` raises
`TypeError` while constructing the first `FunctionCallResult` (the call
site passes keyword `result=`, but `FunctionCallResult.__init__` only
accepts `function_call` and `response`), so no `ToolsExecutionResult` with
one in-order result is returned; the empty batch, which constructs no
result object, still succeeds with zero results. -/
theorem asyncExecutor_typeError_eval :
    AsyncToolExecutor.execute_tools [⟨calcTool, ⟨"calc", []⟩⟩]
      = .error "TypeError: FunctionCallResult.__init__() got an unexpected keyword argument: result" ∧
    AsyncToolExecutor.execute_tools [] = .ok ⟨true, []⟩ ∧
    kwargsBindOk asyncExecutorResultKwargs functionCallResultInitParams = false :=
  ⟨rfl, rfl, rfl⟩

/-! ## C4 -/

/-- C4 evaluation: an endpoint failure is retried with one sleep per retry
and surfaced with the vendor code and message after the budget (here
`num_retries = 2`, hence 3 attempts and 2 sleeps); but an empty response
(no candidates) is NOT surfaced as a distinct error kind: the
`GeminiResponseError` raised inside the `try` block is caught by the
blanket `except Exception` handler and re-raised as
`GeminiAPIError("UNKNOWN", "No response generated")` - the same kind as an
endpoint error - and is retried on the same budget. -/
theorem geminiResponse_emptyWrappedAsApiError_eval :
    get_gemini_response_with_retry (fun _ => .apiError "500" "boom") 2
      = ⟨.error (.api "500" "boom"), 3, 2⟩ ∧
    get_gemini_response (.ok ⟨[]⟩) = .error (.api "UNKNOWN" "No response generated") ∧
    get_gemini_response (.ok ⟨[⟨none⟩]⟩) = .error (.api "UNKNOWN" "Empty response content") ∧
    get_gemini_response_with_retry (fun _ => .ok ⟨[]⟩) 1
      = ⟨.error (.api "UNKNOWN" "No response generated"), 2, 1⟩ :=
  ⟨rfl, rfl, rfl, rfl⟩

/-! ## C8 -/

/-- C8 evaluation: calling `shutdown` twice leaves the same externally
observable state as calling it once (and raises nothing), and after
shutdown the queue is empty so the stream yields no further events; but the
consumer does NOT observe a clean end of stream: `shutdown` enqueues the
`None` stop signal and then immediately drains the whole queue, removing
its own signal, so the generator's next `await queue.get()` suspends
forever (`blocked`), whereas a surviving `None` signal would have produced
`cleanEnd`. -/
theorem shutdown_drainsOwnSignal_eval :
    ExecutorStreamState.shutdown (ExecutorStreamState.shutdown (ExecutorStreamState.initState Nat))
      = ExecutorStreamState.shutdown (ExecutorStreamState.initState Nat) ∧
    (ExecutorStreamState.shutdown ((ExecutorStreamState.initState Nat).emit_event 5)).event_queue
      = [] ∧
    consumeStream (ExecutorStreamState.shutdown (ExecutorStreamState.initState Nat)).event_queue
      = (([] : List Nat), StreamEnd.blocked) ∧
    consumeStream ([none] : List (Option Nat)) = (([] : List Nat), StreamEnd.cleanEnd) :=
  ⟨rfl, rfl, rfl, rfl⟩

/-! ## C6 -/

/-- C6 counterexample: with an empty tool set and caller-requested mode
`"any"`, the Turn Builder does not force the tool-invocation mode to
`"auto"`: it pops the `tool_config` entry entirely, so the resulting
configuration carries no mode at all (in particular not `"auto"`). -/
theorem configWithTools_emptyTools_counterexample :
    (get_config_with_tools default_config [] "any").tool_config_mode = none ∧
    ¬ (get_config_with_tools default_config [] "any").tool_config_mode = some "auto" :=
  ⟨rfl, by decide⟩

/-- C6 amended: when the tool set is empty, the Turn Builder removes the
`tools`, `tool_config` and `automatic_function_calling` entries from the
configuration (attaching no mode, rather than writing mode `"auto"`),
regardless of the caller-requested mode; when the tool set is non-empty,
the tool schema declarations are attached together with the
caller-requested mode, leaving the other entries unchanged. -/
theorem configWithTools_amended (config : GenConfig) (tools : List Tool) (tool_mode : String) :
    (tools = [] →
      get_config_with_tools config tools tool_mode =
        { config with
            tools := none
            tool_config_mode := none
            automatic_function_calling_disable := none }) ∧
    (tools ≠ [] →
      (get_config_with_tools config tools tool_mode).tools
          = some [⟨tools.map (fun t => t.function_definition)⟩] ∧
      (get_config_with_tools config tools tool_mode).tool_config_mode = some tool_mode ∧
      (get_config_with_tools config tools tool_mode).automatic_function_calling_disable
          = config.automatic_function_calling_disable ∧
      (get_config_with_tools config tools tool_mode).cached_content = config.cached_content) := by
  constructor
  · intro h
    subst h
    rfl
  · intro h
    cases tools with
    | nil => exact absurd rfl h
    | cons t ts => exact ⟨rfl, rfl, rfl, rfl⟩

/-- Witness for the C6 amended theorem at concrete inputs: the empty tool
set removes the entries, and one concrete tool attaches declarations with
the caller-requested `"any"` mode. -/
theorem configWithTools_amended_witness :
    get_config_with_tools default_config [] "any" =
      { default_config with
          tools := none
          tool_config_mode := none
          automatic_function_calling_disable := none } ∧
    (get_config_with_tools default_config [calcTool] "any").tool_config_mode = some "any" :=
  ⟨(configWithTools_amended default_config [] "any").1 rfl,
   ((configWithTools_amended default_config [calcTool] "any").2 (by simp)).2.1⟩

/-- Helper: each executed round performs exactly one gateway call, so the
loop makes at most `fuel` model calls. -/
theorem chatLoop_model_calls_le (cid : String) (tools : List Tool)
    (ex : List FunctionCall → ToolsExecutionResult)
    (ep : Nat → Nat → EndpointOutcome) (nr : Nat) :
    ∀ fuel iter c, (chatLoop cid tools ex ep nr fuel iter c).model_calls ≤ fuel := by
  intro fuel
  induction fuel with
  | zero => intro iter c; simp [chatLoop]
  | succ n ih =>
    intro iter c
    simp only [chatLoop]
    split
    · simp
    · split
      · simp
      · split
        · simp
        · split
          · simp only []
            exact Nat.succ_le_succ (ih _ _)
          · simp

/-- Helper: the loop body itself never emits the sentinel event. -/
theorem chatLoop_no_sentinel (cid : String) (tools : List Tool)
    (ex : List FunctionCall → ToolsExecutionResult)
    (ep : Nat → Nat → EndpointOutcome) (nr : Nat) :
    ∀ fuel iter c e, e ∈ (chatLoop cid tools ex ep nr fuel iter c).trace →
      isSentinelEv e = false := by
  intro fuel
  induction fuel with
  | zero => intro iter c e he; simp [chatLoop] at he
  | succ n ih =>
    intro iter c e he
    simp only [chatLoop] at he
    split at he
    · simp at he
    · split at he
      · simp at he
        obtain ⟨t, _, rfl⟩ := he
        rfl
      · split at he
        · simp at he
          rcases he with ⟨t, _, rfl⟩ | rfl <;> rfl
        · split at he
          · simp at he
            rcases he with ⟨t, _, rfl⟩ | rfl | rfl | hrest
            · rfl
            · rfl
            · rfl
            · exact ih _ _ _ hrest
          · simp at he
            rcases he with ⟨t, _, rfl⟩ | rfl | rfl <;> rfl

/-- Helper: at loop exit the `iteration` counter is at most the starting
value plus the available fuel. -/
theorem chatLoop_iteration_le (cid : String) (tools : List Tool)
    (ex : List FunctionCall → ToolsExecutionResult)
    (ep : Nat → Nat → EndpointOutcome) (nr : Nat) :
    ∀ fuel iter c, (chatLoop cid tools ex ep nr fuel iter c).iteration ≤ iter + fuel := by
  intro fuel
  induction fuel with
  | zero => intro iter c; simp [chatLoop]
  | succ n ih =>
    intro iter c
    simp only [chatLoop]
    split
    · dsimp only; omega
    · split
      · dsimp only; omega
      · split
        · dsimp only; omega
        · split
          · exact le_trans (ih _ _) (by omega)
          · dsimp only; omega

/-- Helper: every event the loop emits is tagged with a round strictly
later than the iteration count it was started with. -/
theorem chatLoop_roundEv_gt (cid : String) (tools : List Tool)
    (ex : List FunctionCall → ToolsExecutionResult)
    (ep : Nat → Nat → EndpointOutcome) (nr : Nat) :
    ∀ fuel iter c e, e ∈ (chatLoop cid tools ex ep nr fuel iter c).trace →
      ∀ r, r ≤ iter → isRoundEv r e = false := by
  intro fuel
  induction fuel with
  | zero => intro iter c e he; simp [chatLoop] at he
  | succ n ih =>
    intro iter c e he r hr
    simp only [chatLoop] at he
    split at he
    · simp at he
    · split at he
      · simp at he
        obtain ⟨t, _, rfl⟩ := he
        simp [isRoundEv]
        omega
      · split at he
        · simp at he
          rcases he with ⟨t, _, rfl⟩ | rfl <;> (simp [isRoundEv]; omega)
        · split at he
          · simp at he
            rcases he with ⟨t, _, rfl⟩ | rfl | rfl | hrest
            · simp [isRoundEv]; omega
            · simp [isRoundEv]; omega
            · simp [isRoundEv]; omega
            · exact ih _ _ _ hrest r (le_trans hr (Nat.le_succ iter))
          · simp at he
            rcases he with ⟨t, _, rfl⟩ | rfl | rfl <;> (simp [isRoundEv]; omega)

/-- Helper: filtering a block of yield events by round keeps the whole
block exactly when the rounds agree. -/
theorem filter_round_yieldMap (r i : Nat) (ts : List String) :
    (ts.map (Ev.yieldText i)).filter (isRoundEv r) =
      if i = r then ts.map (Ev.yieldText r) else [] := by
  induction ts with
  | nil => simp
  | cons t ts ih =>
    by_cases h : i = r
    · subst h
      simp only [List.map_cons, List.filter_cons, isRoundEv, beq_self_eq_true, if_pos rfl] at ih ⊢
      simp [ih]
    · simp only [List.map_cons, List.filter_cons, isRoundEv] at ih ⊢
      have hb : (i == r) = false := by simp [h]
      simp [hb, ih, h]

/-- Helper: a filter over a list whose elements all fail the predicate is
empty. -/
theorem filter_eq_nil_of_false {α : Type} (p : α → Bool) (l : List α)
    (h : ∀ a ∈ l, p a = false) : l.filter p = [] := by
  induction l with
  | nil => rfl
  | cons x xs ih =>
    simp only [List.filter_cons, h x (by simp)]
    exact ih (fun a ha => h a (by simp [ha]))

/-- Helper: restricted to any single round, the loop's trace is a block of
yield events followed only by non-yield (resolution/execution) events. -/
theorem chatLoop_round_yields_first (cid : String) (tools : List Tool)
    (ex : List FunctionCall → ToolsExecutionResult)
    (ep : Nat → Nat → EndpointOutcome) (nr : Nat) :
    ∀ fuel iter c r,
      ∃ (ts : List String) (tail : List Ev),
        ((chatLoop cid tools ex ep nr fuel iter c).trace).filter (isRoundEv r)
          = ts.map (Ev.yieldText r) ++ tail ∧ ∀ e ∈ tail, isYieldEv e = false := by
  intro fuel
  induction fuel with
  | zero =>
    intro iter c r
    exact ⟨[], [], by simp [chatLoop], by simp⟩
  | succ n ih =>
    intro iter c r
    simp only [chatLoop]
    split
    · exact ⟨[], [], by simp, by simp⟩
    · rename_i response hre
      split
      · by_cases h : iter + 1 = r
        · refine ⟨extract_text_parts (responseParts response), [], ?_, by simp⟩
          rw [filter_round_yieldMap]
          simp [h]
        · refine ⟨[], [], ?_, by simp⟩
          rw [filter_round_yieldMap]
          simp [h]
      · split
        · by_cases h : iter + 1 = r
          · refine ⟨extract_text_parts (responseParts response),
              [Ev.resolveCalls (iter + 1)
                ((extract_function_calls (responseParts response)).map (fun fc => fc.name))],
              ?_, ?_⟩
            · rw [List.filter_append, filter_round_yieldMap]
              simp [h, isRoundEv]
            · intro e he
              simp at he
              subst he
              rfl
          · refine ⟨[], [], ?_, by simp⟩
            rw [List.filter_append, filter_round_yieldMap]
            have hb : ((iter + 1 : Nat) == r) = false := by simp [h]
            simp [h, isRoundEv, hb]
        · rename_i tool_calls htc
          split
          · by_cases h : iter + 1 = r
            · refine ⟨extract_text_parts (responseParts response),
                [Ev.resolveCalls (iter + 1)
                  ((extract_function_calls (responseParts response)).map (fun fc => fc.name)),
                 Ev.execBatch (iter + 1) tool_calls], ?_, ?_⟩
              · rw [List.filter_append, List.filter_append, filter_round_yieldMap]
                rw [filter_eq_nil_of_false (isRoundEv r) _ (fun e he =>
                  chatLoop_roundEv_gt cid tools ex ep nr n (iter + 1) _ e he r (by omega))]
                simp [h, isRoundEv]
              · intro e he
                simp at he
                rcases he with rfl | rfl <;> rfl
            · obtain ⟨ts, tail, heq, htail⟩ :=
                ih (iter + 1) (update_generation_request c (ex tool_calls)) r
              refine ⟨ts, tail, ?_, htail⟩
              rw [List.filter_append, List.filter_append, filter_round_yieldMap]
              have hb : ((iter + 1 : Nat) == r) = false := by simp [h]
              simp only [h, if_false, isRoundEv, hb, List.filter_cons, List.filter_nil,
                List.nil_append, Bool.false_eq_true, ite_false]
              exact heq
          · by_cases h : iter + 1 = r
            · refine ⟨extract_text_parts (responseParts response),
                [Ev.resolveCalls (iter + 1)
                  ((extract_function_calls (responseParts response)).map (fun fc => fc.name)),
                 Ev.execBatch (iter + 1) tool_calls], ?_, ?_⟩
              · rw [List.filter_append, filter_round_yieldMap]
                simp [h, isRoundEv]
              · intro e he
                simp at he
                rcases he with rfl | rfl <;> rfl
            · refine ⟨[], [], ?_, by simp⟩
              rw [List.filter_append, filter_round_yieldMap]
              have hb : ((iter + 1 : Nat) == r) = false := by simp [h]
              simp [h, isRoundEv, hb]

/-- Helper: when resolution succeeds, every resolved call's tool is exactly
the first tool whose name matches that call's descriptor. -/
theorem create_tool_calls_ok_resolved (tools : List Tool) :
    ∀ (fcs : List FuncCallRaw) (tcs : List FunctionCall),
      create_tool_calls fcs tools = .ok tcs →
      ∀ fc ∈ tcs, tools.find? (fun t => t.name == fc.function_call.name) = some fc.tool := by
  intro fcs
  induction fcs with
  | nil =>
    intro tcs h fc hfc
    simp only [create_tool_calls] at h
    cases h
    simp at hfc
  | cons hd tl ih =>
    intro tcs h fc hfc
    simp only [create_tool_calls] at h
    cases hfind : tools.find? (fun t => t.name == hd.name) with
    | none => rw [hfind] at h; cases h
    | some tool =>
      rw [hfind] at h
      cases hrec : create_tool_calls tl tools with
      | error msg => rw [hrec] at h; cases h
      | ok tcsTail =>
        rw [hrec] at h
        simp only [Except.map] at h
        cases h
        rcases List.mem_cons.mp hfc with rfl | htail
        · exact hfind
        · exact ih tcsTail hrec fc htail

/-- Helper: a resolution error always carries the `Tool ... not found`
message for a name with no match in the tool set. -/
theorem create_tool_calls_error_unresolved (tools : List Tool) :
    ∀ (fcs : List FuncCallRaw) (msg : String),
      create_tool_calls fcs tools = .error msg →
      ∃ name, msg = "Tool " ++ name ++ " not found" ∧
        tools.find? (fun t => t.name == name) = none := by
  intro fcs
  induction fcs with
  | nil =>
    intro msg h
    simp only [create_tool_calls] at h
    cases h
  | cons hd tl ih =>
    intro msg h
    simp only [create_tool_calls] at h
    cases hfind : tools.find? (fun t => t.name == hd.name) with
    | none =>
      rw [hfind] at h
      cases h
      exact ⟨hd.name, rfl, hfind⟩
    | some tool =>
      rw [hfind] at h
      cases hrec : create_tool_calls tl tools with
      | error msg' =>
        rw [hrec] at h
        simp only [Except.map] at h
        cases h
        exact ih _ hrec
      | ok tcsTail => rw [hrec] at h; simp [Except.map] at h

/-- Helper: a batch containing any descriptor with no exact-name match
fails resolution with an error naming an unresolved tool. -/
theorem create_tool_calls_unresolved_is_error (tools : List Tool) :
    ∀ fcs : List FuncCallRaw,
      (∃ fc ∈ fcs, tools.find? (fun t => t.name == fc.name) = none) →
      ∃ name, create_tool_calls fcs tools = .error ("Tool " ++ name ++ " not found") ∧
        tools.find? (fun t => t.name == name) = none := by
  intro fcs
  induction fcs with
  | nil =>
    intro h
    obtain ⟨fc, hmem, _⟩ := h
    simp at hmem
  | cons hd tl ih =>
    intro h
    cases hfind : tools.find? (fun t => t.name == hd.name) with
    | none =>
      refine ⟨hd.name, ?_, hfind⟩
      simp only [create_tool_calls, hfind]
    | some tool =>
      obtain ⟨fc, hmem, hnone⟩ := h
      rcases List.mem_cons.mp hmem with rfl | htl
      · rw [hfind] at hnone; cases hnone
      · obtain ⟨name, herr, hname⟩ := ih ⟨fc, htl, hnone⟩
        refine ⟨name, ?_, hname⟩
        simp only [create_tool_calls, hfind, herr, Except.map]

/-- Helper: every batch the loop hands to the executor is fully resolved:
each call's tool is the exact-name match from the caller's tool set. -/
theorem chatLoop_execBatch_resolved (cid : String) (tools : List Tool)
    (ex : List FunctionCall → ToolsExecutionResult)
    (ep : Nat → Nat → EndpointOutcome) (nr : Nat) :
    ∀ fuel iter c r cs, Ev.execBatch r cs ∈ (chatLoop cid tools ex ep nr fuel iter c).trace →
      ∀ fc ∈ cs, tools.find? (fun t => t.name == fc.function_call.name) = some fc.tool := by
  intro fuel
  induction fuel with
  | zero => intro iter c r cs he; simp [chatLoop] at he
  | succ n ih =>
    intro iter c r cs he
    simp only [chatLoop] at he
    split at he
    · simp at he
    · rename_i response hre
      split at he
      · simp at he
      · rename_i fc0 rest0 hfc0
        split at he
        · simp at he
        · rename_i tool_calls htc
          split at he
          · simp only [List.append_assoc, List.cons_append, List.nil_append,
              List.mem_append, List.mem_map, List.mem_cons] at he
            rcases he with ⟨t, -, heq⟩ | heq | heq | hrest
            · cases heq
            · cases heq
            · injection heq with h1 h2
              subst h2
              exact create_tool_calls_ok_resolved tools _ _ htc
            · exact ih _ _ _ _ hrest
          · simp only [List.mem_append, List.mem_map, List.mem_cons,
              List.not_mem_nil, or_false] at he
            rcases he with ⟨t, -, heq⟩ | heq | heq
            · cases heq
            · cases heq
            · injection heq with h1 h2
              subst h2
              exact create_tool_calls_ok_resolved tools _ _ htc

/-- Helper: an exceptional exit happens inside some round, so the counter
has moved past its starting value. -/
theorem chatLoop_notDone_iteration_gt (cid : String) (tools : List Tool)
    (ex : List FunctionCall → ToolsExecutionResult)
    (ep : Nat → Nat → EndpointOutcome) (nr : Nat) :
    ∀ fuel iter c, (chatLoop cid tools ex ep nr fuel iter c).outcome.isDone = false →
      iter < (chatLoop cid tools ex ep nr fuel iter c).iteration := by
  intro fuel
  induction fuel with
  | zero => intro iter c h; simp [chatLoop, ChatOutcome.isDone] at h
  | succ n ih =>
    intro iter c
    simp only [chatLoop]
    split
    · intro h
      exact Nat.lt_succ_self iter
    · split
      · intro h
        simp [ChatOutcome.isDone] at h
      · split
        · intro h
          exact Nat.lt_succ_self iter
        · split
          · intro h
            exact lt_of_le_of_lt (Nat.le_succ iter) (ih (iter + 1) _ h)
          · intro h
            simp [ChatOutcome.isDone] at h

/-- Helper: `_get_gemini_response` only ever raises `GeminiAPIError` (the
blanket `except Exception` rewraps everything else). -/
theorem get_gemini_response_error_api (o : EndpointOutcome) :
    ∀ e, get_gemini_response o = .error e → ∃ code m, e = .api code m := by
  intro e h
  simp only [get_gemini_response] at h
  split at h
  · cases h
    exact ⟨_, _, rfl⟩
  · cases h
    exact ⟨_, _, rfl⟩
  · split at h
    · cases h
      exact ⟨_, _, rfl⟩
    · split at h
      · cases h
        exact ⟨_, _, rfl⟩
      · split at h
        · cases h
          exact ⟨_, _, rfl⟩
        · cases h

/-- Helper: the retry wrapper likewise only surfaces `GeminiAPIError`. -/
theorem retry_error_is_api (endpoint : Nat → EndpointOutcome) :
    ∀ retries_left attempt e,
      (retryGo endpoint retries_left attempt).result = .error e →
      ∃ code m, e = .api code m := by
  intro left
  induction left with
  | zero =>
    intro attempt e h
    rw [retryGo] at h
    cases hg : get_gemini_response (endpoint attempt) with
    | ok r => rw [hg] at h; cases h
    | error e0 =>
      obtain ⟨code, m, rfl⟩ := get_gemini_response_error_api _ _ hg
      rw [hg] at h
      simp at h
      subst h
      exact ⟨_, _, rfl⟩
  | succ n ih =>
    intro attempt e h
    rw [retryGo] at h
    cases hg : get_gemini_response (endpoint attempt) with
    | ok r => rw [hg] at h; cases h
    | error e0 =>
      obtain ⟨code, m, rfl⟩ := get_gemini_response_error_api _ _ hg
      rw [hg] at h
      exact ih (attempt + 1) e h

/-- Helper: when the loop aborts with a tool-execution error, the message
names an unresolved tool and the failing round executed no batch. -/
theorem chatLoop_toolExecErr (cid : String) (tools : List Tool)
    (ex : List FunctionCall → ToolsExecutionResult)
    (ep : Nat → Nat → EndpointOutcome) (nr : Nat) :
    ∀ fuel iter c msg,
      (chatLoop cid tools ex ep nr fuel iter c).outcome = .err (.toolExec msg) →
      (∃ name, msg = "Tool " ++ name ++ " not found" ∧
        tools.find? (fun t => t.name == name) = none) ∧
      (∀ r cs, Ev.execBatch r cs ∈ (chatLoop cid tools ex ep nr fuel iter c).trace →
        r < (chatLoop cid tools ex ep nr fuel iter c).iteration) := by
  intro fuel
  induction fuel with
  | zero => intro iter c msg h; simp [chatLoop] at h
  | succ n ih =>
    intro iter c msg h
    simp only [chatLoop] at h ⊢
    split at h
    · rename_i e hretry
      simp at h
      subst h
      simp only [get_gemini_response_with_retry] at hretry
      obtain ⟨code, m, heq⟩ := retry_error_is_api (ep (iter + 1)) nr 0 _ hretry
      cases heq
    · rename_i response hre
      split at h
      · simp at h
      · rename_i fc0 rest0 hfc0
        split at h
        · rename_i msg0 hmsg0
          simp at h
          subst h
          constructor
          · exact create_tool_calls_error_unresolved tools _ _ hmsg0
          · simp only [hre, hfc0, hmsg0]
            intro r cs hmem
            simp only [List.mem_append, List.mem_map, List.mem_cons] at hmem
            rcases hmem with ⟨t, -, heq⟩ | hmem
            · cases heq
            · simp at hmem
        · rename_i tool_calls htc
          split at h
          · rename_i hsp
            obtain ⟨hname, hexec⟩ := ih _ _ _ h
            refine ⟨hname, ?_⟩
            simp only [hre, hfc0, htc, hsp, if_true]
            intro r cs hmem
            simp only [List.append_assoc, List.cons_append, List.nil_append,
              List.mem_append, List.mem_map, List.mem_cons] at hmem
            have hgt : iter + 1 <
                (chatLoop cid tools ex ep nr n (iter + 1)
                  (update_generation_request c (ex tool_calls))).iteration := by
              apply chatLoop_notDone_iteration_gt
              rw [h]
              rfl
            rcases hmem with ⟨t, -, heq⟩ | heq | heq | hrest
            · cases heq
            · cases heq
            · injection heq with h1 h2
              omega
            · exact hexec r cs hrest
          · simp at h

/-- Helper: every history write the loop performs uses the chat id it was
given. -/
theorem chatLoop_accesses_chatId (cid : String) (tools : List Tool)
    (ex : List FunctionCall → ToolsExecutionResult)
    (ep : Nat → Nat → EndpointOutcome) (nr : Nat) :
    ∀ fuel iter c,
      ((chatLoop cid tools ex ep nr fuel iter c).accesses).all
        (fun a => a.chatId == cid) = true := by
  intro fuel
  induction fuel with
  | zero => intro iter c; simp [chatLoop]
  | succ n ih =>
    intro iter c
    simp only [chatLoop]
    split
    · simp
    · split
      · simp
      · split
        · simp
        · split
          · exact ih _ _
          · simp [StorageOp.chatId]

/-- Helper: an outcome that is not an error is a normal loop exit. -/
theorem isDone_true_of_ne_err (o : ChatOutcome) (h : ∀ e, o ≠ .err e) : o.isDone = true := by
  cases o
  · rfl
  · rfl
  · rfl
  · exact absurd rfl (h _)

/-- Helper: the post-loop sentinel check preserves every field except the
trace, and appends the sentinel exactly when the loop exited normally with
`iteration >= max_iterations`. -/
theorem chatFinish_spec (K : Nat) (L : LoopOut) :
    (chatFinish K L).model_calls = L.model_calls ∧
    (chatFinish K L).outcome = L.outcome ∧
    (chatFinish K L).iteration = L.iteration ∧
    (chatFinish K L).accesses = L.accesses ∧
    ((L.outcome.isDone = true ∧ K ≤ L.iteration) →
      (chatFinish K L).trace = L.trace ++ [Ev.sentinel]) ∧
    (¬ (L.outcome.isDone = true ∧ K ≤ L.iteration) → (chatFinish K L).trace = L.trace) := by
  unfold chatFinish
  split
  · rename_i e heq
    refine ⟨rfl, rfl, rfl, rfl, ?_, fun _ => rfl⟩
    rintro ⟨hd, -⟩
    rw [heq] at hd
    cases hd
  · rename_i hne
    have hdone : L.outcome.isDone = true := by
      apply isDone_true_of_ne_err
      intro e he
      exact hne e he
    by_cases hK : K ≤ L.iteration
    · rw [if_pos hK]
      refine ⟨rfl, rfl, rfl, rfl, fun _ => rfl, ?_⟩
      intro hcon
      exact absurd ⟨hdone, hK⟩ hcon
    · rw [if_neg hK]
      refine ⟨rfl, rfl, rfl, rfl, ?_, fun _ => rfl⟩
      rintro ⟨-, hK2⟩
      exact absurd hK2 hK

/-- C1 (amended): for every iteration cap `K >= 1` the loop makes at most
`K` model calls, and the sentinel chunk is emitted exactly when the loop
exits non-exceptionally having completed exactly `K` iterations - also
when the `K`-th round itself ended because the model returned no tool
calls or an executor signaled stop - in which case it is the final event;
when the loop ends before completing `K` iterations (or with an error) the
stream ends without the sentinel. -/
theorem chat_iterationCap_amended (sp : String) (gh : String → List ChatMessage)
    (q : String) (tools : List Tool)
    (ex : List FunctionCall → ToolsExecutionResult)
    (ep : Nat → Nat → EndpointOutcome) (K nr : Nat) (tm : String)
    (hK : 1 ≤ K) :
    (chat sp gh q tools ex ep K nr tm).model_calls ≤ K ∧
    sentinelCount (chat sp gh q tools ex ep K nr tm).trace
      = (if (chat sp gh q tools ex ep K nr tm).outcome.isDone = true ∧
            (chat sp gh q tools ex ep K nr tm).iteration = K then 1 else 0) ∧
    ((chat sp gh q tools ex ep K nr tm).outcome.isDone = true →
      (chat sp gh q tools ex ep K nr tm).iteration = K →
      (chat sp gh q tools ex ep K nr tm).trace.getLast? = some Ev.sentinel) := by
  have hchat : chat sp gh q tools ex ep K nr tm
      = chatFinish K { chatLoop "1" tools ex ep nr K 0
          (generate_content_request sp gh "1" q tools tm).contents with
          accesses := StorageOp.read "1" ::
            (chatLoop "1" tools ex ep nr K 0
              (generate_content_request sp gh "1" q tools tm).contents).accesses } := rfl
  obtain ⟨h1, h2, h3, h4, h5, h6⟩ :=
    chatFinish_spec K { chatLoop "1" tools ex ep nr K 0
        (generate_content_request sp gh "1" q tools tm).contents with
        accesses := StorageOp.read "1" ::
          (chatLoop "1" tools ex ep nr K 0
            (generate_content_request sp gh "1" q tools tm).contents).accesses }
  have hmc : (chatLoop "1" tools ex ep nr K 0
      (generate_content_request sp gh "1" q tools tm).contents).model_calls ≤ K :=
    chatLoop_model_calls_le "1" tools ex ep nr K 0 _
  have hit : (chatLoop "1" tools ex ep nr K 0
      (generate_content_request sp gh "1" q tools tm).contents).iteration ≤ K := by
    have := chatLoop_iteration_le "1" tools ex ep nr K 0
      (generate_content_request sp gh "1" q tools tm).contents
    omega
  have hcount0 : sentinelCount (chatLoop "1" tools ex ep nr K 0
      (generate_content_request sp gh "1" q tools tm).contents).trace = 0 := by
    apply List.countP_eq_zero.mpr
    intro e he
    simp [chatLoop_no_sentinel "1" tools ex ep nr K 0 _ e he]
  rw [hchat]
  by_cases hcond : ({ chatLoop "1" tools ex ep nr K 0
      (generate_content_request sp gh "1" q tools tm).contents with
      accesses := StorageOp.read "1" ::
        (chatLoop "1" tools ex ep nr K 0
          (generate_content_request sp gh "1" q tools tm).contents).accesses }
        : LoopOut).outcome.isDone = true ∧
      K ≤ ({ chatLoop "1" tools ex ep nr K 0
        (generate_content_request sp gh "1" q tools tm).contents with
        accesses := StorageOp.read "1" ::
          (chatLoop "1" tools ex ep nr K 0
            (generate_content_request sp gh "1" q tools tm).contents).accesses }
          : LoopOut).iteration
  · have htr := h5 hcond
    have hiterK : ({ chatLoop "1" tools ex ep nr K 0
        (generate_content_request sp gh "1" q tools tm).contents with
        accesses := StorageOp.read "1" ::
          (chatLoop "1" tools ex ep nr K 0
            (generate_content_request sp gh "1" q tools tm).contents).accesses }
          : LoopOut).iteration = K := le_antisymm hit hcond.2
    refine ⟨?_, ?_, ?_⟩
    · rw [h1]; exact hmc
    · rw [htr]
      rw [h2, h3]
      rw [if_pos ⟨hcond.1, hiterK⟩]
      unfold sentinelCount at hcount0 ⊢
      rw [List.countP_append, hcount0]
      rfl
    · intro _ _
      rw [htr]
      exact List.getLast?_concat _
  · have htr := h6 hcond
    refine ⟨?_, ?_, ?_⟩
    · rw [h1]; exact hmc
    · rw [htr, h2, h3]
      rw [if_neg]
      · exact hcount0
      · rintro ⟨hd, hiter⟩
        exact hcond ⟨hd, le_of_eq hiter.symm⟩
    · intro hd hiter
      rw [h2] at hd
      rw [h3] at hiter
      exact absurd ⟨hd, le_of_eq hiter.symm⟩ hcond

/-- C3: in every round of the chat loop, every text fragment extracted from
that round's model response is yielded before any tool call of that round
is resolved or executed: the round's events are a block of yields followed
only by non-yield events. -/
theorem chat_text_before_tools (sp : String) (gh : String → List ChatMessage)
    (q : String) (tools : List Tool)
    (ex : List FunctionCall → ToolsExecutionResult)
    (ep : Nat → Nat → EndpointOutcome) (K nr : Nat) (tm : String) (r : Nat) :
    ∃ (ts : List String) (tail : List Ev),
      ((chat sp gh q tools ex ep K nr tm).trace).filter (isRoundEv r)
        = ts.map (Ev.yieldText r) ++ tail ∧ ∀ e ∈ tail, isYieldEv e = false := by
  have hchat : chat sp gh q tools ex ep K nr tm
      = chatFinish K { chatLoop "1" tools ex ep nr K 0
          (generate_content_request sp gh "1" q tools tm).contents with
          accesses := StorageOp.read "1" ::
            (chatLoop "1" tools ex ep nr K 0
              (generate_content_request sp gh "1" q tools tm).contents).accesses } := rfl
  obtain ⟨-, -, -, -, h5, h6⟩ :=
    chatFinish_spec K { chatLoop "1" tools ex ep nr K 0
        (generate_content_request sp gh "1" q tools tm).contents with
        accesses := StorageOp.read "1" ::
          (chatLoop "1" tools ex ep nr K 0
            (generate_content_request sp gh "1" q tools tm).contents).accesses }
  obtain ⟨ts, tail, heq, ht⟩ := chatLoop_round_yields_first "1" tools ex ep nr K 0
    (generate_content_request sp gh "1" q tools tm).contents r
  refine ⟨ts, tail, ?_, ht⟩
  rw [hchat]
  by_cases hcond : ({ chatLoop "1" tools ex ep nr K 0
      (generate_content_request sp gh "1" q tools tm).contents with
      accesses := StorageOp.read "1" ::
        (chatLoop "1" tools ex ep nr K 0
          (generate_content_request sp gh "1" q tools tm).contents).accesses }
        : LoopOut).outcome.isDone = true ∧
      K ≤ ({ chatLoop "1" tools ex ep nr K 0
        (generate_content_request sp gh "1" q tools tm).contents with
        accesses := StorageOp.read "1" ::
          (chatLoop "1" tools ex ep nr K 0
            (generate_content_request sp gh "1" q tools tm).contents).accesses }
          : LoopOut).iteration
  · rw [h5 hcond, List.filter_append]
    have hsent : List.filter (isRoundEv r) [Ev.sentinel] = [] := rfl
    rw [hsent, List.append_nil]
    exact heq
  · rw [h6 hcond]
    exact heq

/-- C5: a batch containing a descriptor with no exact-name match fails
resolution with a fatal tool-execution error naming an unresolved tool;
every batch that reaches execution is fully resolved; and when the chat
aborts with that error, the failing round executed no batch (all batches
in the trace belong to strictly earlier rounds). -/
theorem chat_unresolvedTool_allOrNothing (sp : String) (gh : String → List ChatMessage)
    (q : String) (tools : List Tool)
    (ex : List FunctionCall → ToolsExecutionResult)
    (ep : Nat → Nat → EndpointOutcome) (K nr : Nat) (tm : String) :
    (∀ fcs : List FuncCallRaw,
        (∃ fc ∈ fcs, tools.find? (fun t => t.name == fc.name) = none) →
        ∃ name, create_tool_calls fcs tools = .error ("Tool " ++ name ++ " not found") ∧
          tools.find? (fun t => t.name == name) = none) ∧
    (∀ r cs, Ev.execBatch r cs ∈ (chat sp gh q tools ex ep K nr tm).trace →
        ∀ fc ∈ cs, tools.find? (fun t => t.name == fc.function_call.name) = some fc.tool) ∧
    (∀ msg, (chat sp gh q tools ex ep K nr tm).outcome = .err (.toolExec msg) →
        (∃ name, msg = "Tool " ++ name ++ " not found" ∧
          tools.find? (fun t => t.name == name) = none) ∧
        (∀ r cs, Ev.execBatch r cs ∈ (chat sp gh q tools ex ep K nr tm).trace →
          r < (chat sp gh q tools ex ep K nr tm).iteration)) := by
  have hchat : chat sp gh q tools ex ep K nr tm
      = chatFinish K { chatLoop "1" tools ex ep nr K 0
          (generate_content_request sp gh "1" q tools tm).contents with
          accesses := StorageOp.read "1" ::
            (chatLoop "1" tools ex ep nr K 0
              (generate_content_request sp gh "1" q tools tm).contents).accesses } := rfl
  obtain ⟨-, h2, h3, -, h5, h6⟩ :=
    chatFinish_spec K { chatLoop "1" tools ex ep nr K 0
        (generate_content_request sp gh "1" q tools tm).contents with
        accesses := StorageOp.read "1" ::
          (chatLoop "1" tools ex ep nr K 0
            (generate_content_request sp gh "1" q tools tm).contents).accesses }
  have hmemtr : ∀ r cs, Ev.execBatch r cs ∈ (chat sp gh q tools ex ep K nr tm).trace →
      Ev.execBatch r cs ∈ (chatLoop "1" tools ex ep nr K 0
        (generate_content_request sp gh "1" q tools tm).contents).trace := by
    intro r cs hmem
    rw [hchat] at hmem
    by_cases hcond : ({ chatLoop "1" tools ex ep nr K 0
        (generate_content_request sp gh "1" q tools tm).contents with
        accesses := StorageOp.read "1" ::
          (chatLoop "1" tools ex ep nr K 0
            (generate_content_request sp gh "1" q tools tm).contents).accesses }
          : LoopOut).outcome.isDone = true ∧
        K ≤ ({ chatLoop "1" tools ex ep nr K 0
          (generate_content_request sp gh "1" q tools tm).contents with
          accesses := StorageOp.read "1" ::
            (chatLoop "1" tools ex ep nr K 0
              (generate_content_request sp gh "1" q tools tm).contents).accesses }
            : LoopOut).iteration
    · rw [h5 hcond] at hmem
      rcases List.mem_append.mp hmem with h | h
      · exact h
      · simp at h
    · rw [h6 hcond] at hmem
      exact hmem
  refine ⟨create_tool_calls_unresolved_is_error tools, ?_, ?_⟩
  · intro r cs hmem
    exact chatLoop_execBatch_resolved "1" tools ex ep nr K 0 _ r cs (hmemtr r cs hmem)
  · intro msg hout
    rw [hchat, h2] at hout
    obtain ⟨hname, hexec⟩ := chatLoop_toolExecErr "1" tools ex ep nr K 0 _ msg hout
    refine ⟨hname, ?_⟩
    intro r cs hmem
    rw [hchat, h3]
    exact hexec r cs (hmemtr r cs hmem)

/-- C9: every invocation of `chat` reads and writes conversation history
under the single constant session identifier `"1"`: the first storage
operation is the initial history read with id `"1"`, and every storage
operation of the run carries id `"1"`. -/
theorem chat_singleSessionId (sp : String) (gh : String → List ChatMessage)
    (q : String) (tools : List Tool)
    (ex : List FunctionCall → ToolsExecutionResult)
    (ep : Nat → Nat → EndpointOutcome) (K nr : Nat) (tm : String) :
    (chat sp gh q tools ex ep K nr tm).accesses.head? = some (StorageOp.read "1") ∧
    ((chat sp gh q tools ex ep K nr tm).accesses.all (fun a => a.chatId == "1")) = true := by
  have hchat : chat sp gh q tools ex ep K nr tm
      = chatFinish K { chatLoop "1" tools ex ep nr K 0
          (generate_content_request sp gh "1" q tools tm).contents with
          accesses := StorageOp.read "1" ::
            (chatLoop "1" tools ex ep nr K 0
              (generate_content_request sp gh "1" q tools tm).contents).accesses } := rfl
  obtain ⟨-, -, -, h4, -, -⟩ :=
    chatFinish_spec K { chatLoop "1" tools ex ep nr K 0
        (generate_content_request sp gh "1" q tools tm).contents with
        accesses := StorageOp.read "1" ::
          (chatLoop "1" tools ex ep nr K 0
            (generate_content_request sp gh "1" q tools tm).contents).accesses }
  rw [hchat, h4]
  refine ⟨rfl, ?_⟩
  rw [List.all_cons]
  rw [chatLoop_accesses_chatId "1" tools ex ep nr K 0
    (generate_content_request sp gh "1" q tools tm).contents]
  rfl

/-- Helper: the fold of `_update_generation_request` appends, after the
existing contents, the request/result message pairs in input order. -/
theorem update_generation_request_eq_append (contents : List ChatMessage)
    (execution_result : ToolsExecutionResult) :
    update_generation_request contents execution_result
      = contents ++ execution_result.function_call_results.flatMap pairMessages := by
  unfold update_generation_request
  generalize execution_result.function_call_results = rs
  induction rs generalizing contents with
  | nil => simp
  | cons hd tl ih =>
    simp only [List.foldl_cons, List.flatMap_cons]
    rw [ih]
    simp [pairMessages]

/-- Helper: the appended segment has two messages per result. -/
theorem pairSeg_length (rs : List FunctionCallResult) :
    (rs.flatMap pairMessages).length = 2 * rs.length := by
  induction rs with
  | nil => rfl
  | cons hd tl ih =>
    simp only [List.flatMap_cons, List.length_append, ih, pairMessages]
    simp
    omega

/-- Helper: the `i`-th result's two messages sit at offsets `2i` and
`2i + 1` of the appended segment. -/
theorem pairSeg_getElem (rs : List FunctionCallResult) :
    ∀ i r, rs[i]? = some r →
      (rs.flatMap pairMessages)[2 * i]?
          = some (ChatMessage.from_function_call r.function_call.tool.name
              r.function_call.function_call.args) ∧
      (rs.flatMap pairMessages)[2 * i + 1]?
          = some (ChatMessage.from_function_result r.function_call.tool.name r.result) := by
  induction rs with
  | nil => intro i r h; simp at h
  | cons hd tl ih =>
    intro i r h
    cases i with
    | zero =>
      simp only [List.getElem?_cons_zero, Option.some_inj] at h
      subst h
      constructor <;> simp [pairMessages]
    | succ n =>
      simp only [List.getElem?_cons_succ] at h
      obtain ⟨ih1, ih2⟩ := ih n r h
      have e1 : 2 * (n + 1) = 2 * n + 1 + 1 := by omega
      have e2 : 2 * (n + 1) + 1 = 2 * n + 1 + 1 + 1 := by omega
      constructor
      · rw [e1]
        simp only [List.flatMap_cons, pairMessages, List.cons_append, List.nil_append,
          List.getElem?_cons_succ]
        exact ih1
      · rw [e2]
        simp only [List.flatMap_cons, pairMessages, List.cons_append, List.nil_append,
          List.getElem?_cons_succ]
        exact ih2

/-- Helper: the dangling-call invariant is preserved by concatenation. -/
theorem noDangling_append (a b : List ChatMessage)
    (ha : noDanglingCall a = true) (hb : noDanglingCall b = true) :
    noDanglingCall (a ++ b) = true := by
  induction a with
  | nil => simpa using hb
  | cons m rest ih =>
    cases hc : m.content with
    | functionCall n args =>
      cases rest with
      | nil => simp [noDanglingCall, hc] at ha
      | cons m' rest' =>
        simp only [noDanglingCall, hc, Bool.and_eq_true] at ha
        obtain ⟨hpair, hrest⟩ := ha
        simp only [List.cons_append, noDanglingCall, hc, Bool.and_eq_true]
        exact ⟨hpair, ih hrest⟩
    | userResponse s =>
      simp only [noDanglingCall, hc] at ha
      simp only [List.cons_append, noDanglingCall, hc]
      exact ih ha
    | functionResult n res =>
      simp only [noDanglingCall, hc] at ha
      simp only [List.cons_append, noDanglingCall, hc]
      exact ih ha
    | fileContent f =>
      simp only [noDanglingCall, hc] at ha
      simp only [List.cons_append, noDanglingCall, hc]
      exact ih ha

/-- Helper: the appended request/result pairs satisfy the dangling-call
invariant by construction. -/
theorem noDangling_pairSeg (rs : List FunctionCallResult) :
    noDanglingCall (rs.flatMap pairMessages) = true := by
  induction rs with
  | nil => rfl
  | cons hd tl ih =>
    simp only [List.flatMap_cons, pairMessages, List.cons_append, List.nil_append]
    simp only [noDanglingCall, ChatMessage.from_function_call, ChatMessage.from_function_result,
      Bool.and_eq_true]
    exact ⟨by simp, by simpa [noDanglingCall] using ih⟩

/-- C7: after a tool-execution batch, exactly two messages are appended per
`FunctionCallResult` in input order - the model-origin tool-call request at
offset `2i`, immediately followed by the model-origin tool-call result at
offset `2i + 1` - so a conversation without dangling tool-call requests
still has none after folding the results. -/
theorem updateGenerationRequest_pairsInOrder (contents : List ChatMessage)
    (execution_result : ToolsExecutionResult) :
    (update_generation_request contents execution_result).length
        = contents.length + 2 * execution_result.function_call_results.length ∧
    (∀ i r, execution_result.function_call_results[i]? = some r →
      (update_generation_request contents execution_result)[contents.length + 2 * i]?
          = some (ChatMessage.from_function_call r.function_call.tool.name
              r.function_call.function_call.args) ∧
      (update_generation_request contents execution_result)[contents.length + 2 * i + 1]?
          = some (ChatMessage.from_function_result r.function_call.tool.name r.result)) ∧
    (noDanglingCall contents = true →
      noDanglingCall (update_generation_request contents execution_result) = true) := by
  rw [update_generation_request_eq_append]
  refine ⟨?_, ?_, ?_⟩
  · rw [List.length_append, pairSeg_length]
  · intro i r h
    obtain ⟨h1, h2⟩ := pairSeg_getElem _ i r h
    constructor
    · rw [List.getElem?_append_right (by omega)]
      rw [Nat.add_sub_cancel_left]
      exact h1
    · rw [List.getElem?_append_right (by omega)]
      have e : contents.length + 2 * i + 1 - contents.length = 2 * i + 1 := by omega
      rw [e]
      exact h2
  · intro hnd
    exact noDangling_append _ _ hnd (noDangling_pairSeg _)

/-- Witness for C1 at `K = 1` with a model that answers in text. -/
theorem chat_iterationCap_witness :
    (chat "sys" (fun _ => []) "What is 2+2" [] proceedExec text4Endpoint 1 1 "any").model_calls ≤ 1 ∧
    sentinelCount (chat "sys" (fun _ => []) "What is 2+2" [] proceedExec text4Endpoint 1 1 "any").trace
      = (if (chat "sys" (fun _ => []) "What is 2+2" [] proceedExec text4Endpoint 1 1 "any").outcome.isDone = true ∧
            (chat "sys" (fun _ => []) "What is 2+2" [] proceedExec text4Endpoint 1 1 "any").iteration = 1 then 1 else 0) ∧
    ((chat "sys" (fun _ => []) "What is 2+2" [] proceedExec text4Endpoint 1 1 "any").outcome.isDone = true →
      (chat "sys" (fun _ => []) "What is 2+2" [] proceedExec text4Endpoint 1 1 "any").iteration = 1 →
      (chat "sys" (fun _ => []) "What is 2+2" [] proceedExec text4Endpoint 1 1 "any").trace.getLast?
        = some Ev.sentinel) :=
  chat_iterationCap_amended "sys" (fun _ => []) "What is 2+2" [] proceedExec text4Endpoint 1 1 "any"
    (by decide)

/-- C1 counterexample: with `max_iterations = 1` and a model that returns
text and no tool calls, the loop ends because the model returned no tool
calls, yet the stream still ends with the sentinel chunk - refuting the
claim that a no-tool-calls exit never carries the sentinel. -/
theorem chat_sentinelOnNormalEnd_counterexample :
    (chat "sys" (fun _ => []) "What is 2+2" [] proceedExec text4Endpoint 1 1 "any").outcome
      = ChatOutcome.doneNoCalls ∧
    chunksOf (chat "sys" (fun _ => []) "What is 2+2" [] proceedExec text4Endpoint 1 1 "any").trace
      = ["4", "Maximum tool iterations reached."] := ⟨rfl, rfl⟩

/-- Witness for C3 on a concrete two-round tool-calling run, round 1. -/
theorem chat_text_before_tools_witness :
    ∃ (ts : List String) (tail : List Ev),
      ((chat "sys" (fun _ => []) "What is 2+2" [calcTool] proceedExec callCalcEndpoint 2 1 "any").trace).filter
          (isRoundEv 1)
        = ts.map (Ev.yieldText 1) ++ tail ∧ ∀ e ∈ tail, isYieldEv e = false :=
  chat_text_before_tools "sys" (fun _ => []) "What is 2+2" [calcTool] proceedExec
    callCalcEndpoint 2 1 "any" 1

/-- Witness for C5: the model requests `unknown_tool`, absent from the
supplied tool set. -/
theorem chat_unresolvedTool_witness :
    (∃ name, create_tool_calls [⟨"unknown_tool", []⟩] [calcTool]
        = .error ("Tool " ++ name ++ " not found") ∧
      [calcTool].find? (fun t => t.name == name) = none) ∧
    ((∃ name, "Tool unknown_tool not found" = "Tool " ++ name ++ " not found" ∧
        [calcTool].find? (fun t => t.name == name) = none) ∧
      (∀ r cs, Ev.execBatch r cs ∈ (chat "sys" (fun _ => []) "q" [calcTool] proceedExec
            unknownToolEndpoint 10 1 "any").trace →
        r < (chat "sys" (fun _ => []) "q" [calcTool] proceedExec
            unknownToolEndpoint 10 1 "any").iteration)) :=
  ⟨(chat_unresolvedTool_allOrNothing "sys" (fun _ => []) "q" [calcTool] proceedExec
      unknownToolEndpoint 10 1 "any").1 [⟨"unknown_tool", []⟩]
      ⟨⟨"unknown_tool", []⟩, by simp, rfl⟩,
   (chat_unresolvedTool_allOrNothing "sys" (fun _ => []) "q" [calcTool] proceedExec
      unknownToolEndpoint 10 1 "any").2.2 "Tool unknown_tool not found" rfl⟩

/-- Witness for C7 on a one-result batch appended to a one-message
conversation. -/
theorem updateGenerationRequest_witness :
    (update_generation_request [ChatMessage.from_user_query "hi"] exampleResult)[1 + 2 * 0]?
        = some (ChatMessage.from_function_call "calc" []) ∧
    (update_generation_request [ChatMessage.from_user_query "hi"] exampleResult)[1 + 2 * 0 + 1]?
        = some (ChatMessage.from_function_result "calc" [("result", .num 4)]) ∧
    noDanglingCall (update_generation_request [ChatMessage.from_user_query "hi"] exampleResult)
      = true :=
  ⟨((updateGenerationRequest_pairsInOrder [ChatMessage.from_user_query "hi"] exampleResult).2.1
      0 _ rfl).1,
   ((updateGenerationRequest_pairsInOrder [ChatMessage.from_user_query "hi"] exampleResult).2.1
      0 _ rfl).2,
   (updateGenerationRequest_pairsInOrder [ChatMessage.from_user_query "hi"] exampleResult).2.2 rfl⟩
